import Mathlib

/-!
Verification development for athena_tools/athena_query_executor.py.

The program submits an Athena SQL query, polls execution status until a
terminal state, derives the S3 location of the result CSV, and downloads it.
We shallow-embed the pure string logic directly and model the two external
collaborators (the query service and the storage service) as explicit
oracles: the query service is the execution id returned by submission plus a
list of get_query_execution responses consumed in order, and the storage
service is a function from (bucket, key) to a transfer outcome.

Python strings are modelled as lists of characters.
-/

namespace AthenaTools

/-- Python strings, modelled as lists of characters. -/
abbrev Str := List Char

/-- Character list of a Lean string literal (used to transcribe Python string
literals from the source). -/
def strOf (s : String) : Str := s.data

/-- The storage-protocol marker "s3://" that `parse_s3_uri` checks with
`s3_uri.startswith("s3://")` and strips with `s3_uri[5:]`. -/
def s3Scheme : Str := strOf "s3://"

/-- The two distinct `ValueError` raises in `parse_s3_uri`. -/
inductive S3UriError where
  | invalidScheme
  | invalidFormat
deriving DecidableEq

/-- The message string of each `ValueError` raised by `parse_s3_uri`. -/
def S3UriError.message : S3UriError → Str
  | .invalidScheme => strOf "Invalid S3 URI. Must start with \x27s3://\x27"
  | .invalidFormat => strOf "Invalid S3 URI format."

/-- Python `s.split(sep, 1)` restricted to the information `parse_s3_uri`
uses: `some (before, after)` when `sep` occurs in `s` (the split yields two
parts), `none` when it does not (the split yields a single part, so the
subsequent `len(parts) != 2` check fires). -/
def splitFirst (sep : Char) : Str → Option (Str × Str)
  | [] => none
  | c :: cs =>
      if c = sep then some ([], cs)
      else
        match splitFirst sep cs with
        | some (before, after) => some (c :: before, after)
        | none => none

/-- The function `parse_s3_uri` from the source: raise `ValueError` with the
message about the scheme unless `s3_uri.startswith("s3://")`; compute
`parts = s3_uri[5:].split("/", 1)`; raise `ValueError` with the format
message unless `len(parts) == 2`; return `(parts[0], parts[1])`.  There is
no check that either part is non-empty. -/
def parse_s3_uri (s3_uri : Str) : Except S3UriError (Str × Str) :=
  if s3Scheme.isPrefixOf s3_uri then
    match splitFirst '/' (s3_uri.drop 5) with
    | some (bucket, key) => Except.ok (bucket, key)
    | none => Except.error S3UriError.invalidFormat
  else
    Except.error S3UriError.invalidScheme

/-- The function `ensure_no_trailing_slash` from the source:
`s.rstrip("/")`, which removes every trailing slash character. -/
def ensure_no_trailing_slash (s : Str) : Str :=
  (s.reverse.dropWhile (fun c => c == '/')).reverse

/-- Athena execution states, as read from the State field of a
get_query_execution response. -/
inductive Status where
  | queued
  | running
  | succeeded
  | failed
  | cancelled
deriving DecidableEq

/-- The states on which the polling loop stops: membership in the list
["SUCCEEDED", "FAILED", "CANCELLED"] tested before the break. -/
def Status.isTerminal : Status → Bool
  | .succeeded => true
  | .failed => true
  | .cancelled => true
  | .queued => false
  | .running => false

/-- The wire string of each state, as interpolated into the failure message
by the f-string in the raise statement. -/
def Status.wire : Status → Str
  | .queued => strOf "QUEUED"
  | .running => strOf "RUNNING"
  | .succeeded => strOf "SUCCEEDED"
  | .failed => strOf "FAILED"
  | .cancelled => strOf "CANCELLED"

/-- One get_query_execution response: the State and the StateChangeReason
attached to it. -/
structure GetStatusResponse where
  state : Status
  stateChangeReason : Str
deriving DecidableEq

/-- The polling loop of `execute_athena_query`.  The source initializes
status to RUNNING, so the while condition (status is RUNNING or QUEUED)
holds and the loop is entered; each iteration calls get_query_execution,
reads the new status, breaks if it is terminal, and otherwise sleeps 2
seconds and re-tests the condition, which holds again since a non-terminal
status is QUEUED or RUNNING.  The loop therefore consumes one response per
iteration and stops at the first terminal one.  We return the response the
loop stopped on together with the number of get_query_execution calls made;
`none` models a response sequence containing no terminal status, on which
the loop never terminates. -/
def execute_poll : List GetStatusResponse → Option (GetStatusResponse × Nat)
  | [] => none
  | resp :: rest =>
      if resp.state.isTerminal then some (resp, 1)
      else
        match execute_poll rest with
        | some (r, n) => some (r, n + 1)
        | none => none

/-- The exception raised on a non-success terminal state, carrying the
terminal status and the service-provided StateChangeReason (the source
packs both into the message of a generic Exception; the spec names this
error QueryExecutionError). -/
structure QueryExecutionError where
  status : Status
  reason : Str
deriving DecidableEq

/-- The message of the raised exception: the f-string interpolating the
status and the StateChangeReason of the last response. -/
def QueryExecutionError.message (e : QueryExecutionError) : Str :=
  strOf "Query " ++ e.status.wire ++ strOf ": " ++ e.reason

/-- The function `execute_athena_query` after submission: the submission
returned `query_execution_id`, and `responses` is the sequence of
get_query_execution responses the service will give.  On SUCCEEDED it
returns the f-string concatenating the output location, a slash, the
execution id and ".csv"; on any other terminal state it raises, packing the
status and the StateChangeReason.  `none` models the polling loop never
observing a terminal status. -/
def execute_athena_query (output_location query_execution_id : Str)
    (responses : List GetStatusResponse) :
    Option (Except QueryExecutionError Str) :=
  match execute_poll responses with
  | none => none
  | some (resp, _) =>
      if resp.state = Status.succeeded then
        some (Except.ok
          (output_location ++ strOf "/" ++ query_execution_id ++ strOf ".csv"))
      else
        some (Except.error ⟨resp.state, resp.stateChangeReason⟩)

/-- The errors observable at the except-Exception handler of `main`. -/
inductive AppError where
  | malformedAddress : S3UriError → AppError
  | queryExecution : QueryExecutionError → AppError
  | transfer : Str → AppError
deriving DecidableEq

/-- The message of each modelled exception, i.e. what the f-string in the
handler interpolates for it. -/
def AppError.message : AppError → Str
  | .malformedAddress e => e.message
  | .queryExecution e => e.message
  | .transfer m => m

/-- The external services for one invocation: the QueryExecutionId the
submission returns, the get_query_execution responses in order, and the
outcome of s3.download_file on a given (bucket, key). -/
structure ServiceBehavior where
  queryExecutionId : Str
  responses : List GetStatusResponse
  download : Str → Str → Except Str Unit

/-- The function `download_csv_from_s3`: parse the URI into (bucket, key),
then call s3.download_file with them; either step may raise. -/
def download_csv_from_s3 (svc : ServiceBehavior) (s3_uri : Str) :
    Except AppError Unit :=
  match parse_s3_uri s3_uri with
  | Except.error e => Except.error (AppError.malformedAddress e)
  | Except.ok (bucket, key) =>
      match svc.download bucket key with
      | Except.error m => Except.error (AppError.transfer m)
      | Except.ok _ => Except.ok ()

/-- What one run records: the lines printed inside the try block, and how
many times `download_csv_from_s3` (the Artifact Fetcher) was invoked. -/
structure RunTrace where
  printed : List Str
  downloadCalls : Nat
deriving DecidableEq

/-- The try block of `main`: execute the query with the
trailing-slash-stripped output location, print the success line, download,
print the download line.  Returns the trace together with the raised
exception when a statement raised (the remainder of the block is skipped),
and `none` when the polling loop never terminates. -/
def tryBody (output_location output_file : Str) (svc : ServiceBehavior) :
    Option (RunTrace × Except AppError Unit) :=
  match execute_athena_query (ensure_no_trailing_slash output_location)
      svc.queryExecutionId svc.responses with
  | none => none
  | some (Except.error e) =>
      some (⟨[], 0⟩, Except.error (AppError.queryExecution e))
  | some (Except.ok s3_uri) =>
      let successLine := strOf "Query succeeded. Result saved in: " ++ s3_uri
      match download_csv_from_s3 svc s3_uri with
      | Except.error e => some (⟨[successLine], 1⟩, Except.error e)
      | Except.ok _ =>
          some (⟨[successLine,
            strOf "CSV downloaded successfully to: " ++ output_file], 1⟩,
            Except.ok ())

/-- Outcome of a whole `main` invocation: everything printed to stdout, the
number of Artifact Fetcher calls, and the process exit code. -/
structure MainResult where
  printed : List Str
  downloadCalls : Nat
  exitCode : Nat
deriving DecidableEq

/-- The function `main` around the try block: the except-Exception handler
prints the f-string prefixing the message with "Error: " and falls off the
end of `main`, so the process exits 0 in every case.  `none` models the
polling loop never terminating. -/
def main (output_location output_file : Str) (svc : ServiceBehavior) :
    Option MainResult :=
  match tryBody output_location output_file svc with
  | none => none
  | some (tr, Except.ok _) => some ⟨tr.printed, tr.downloadCalls, 0⟩
  | some (tr, Except.error e) =>
      some ⟨tr.printed ++ [strOf "Error: " ++ e.message], tr.downloadCalls, 0⟩

/-- The module-level default profile: "aberezin" if AWS_PROFILE is not in
os.environ, else the value of os.environ at AWS_PROFILE, with the
environment lookup made explicit. -/
def defaultProfile (awsProfileEnv : Option Str) : Str :=
  match awsProfileEnv with
  | none => strOf "aberezin"
  | some v => v

end AthenaTools

deriving instance DecidableEq for Except

namespace AthenaTools

/-- Auxiliary: the one-shot split finds nothing exactly when the separator
does not occur. -/
theorem splitFirst_eq_none_iff (sep : Char) (l : Str) :
    splitFirst sep l = none ↔ sep ∉ l := by
  induction l with
  | nil => simp [splitFirst]
  | cons c cs ih =>
      by_cases hc : c = sep
      · simp [splitFirst, hc]
      · rw [splitFirst, if_neg hc]
        cases h : splitFirst sep cs with
        | none => simp [List.mem_cons, Ne.symm hc, ih.mp h]
        | some p =>
            have hsm : sep ∈ cs := by
              by_contra hn
              rw [ih.mpr hn] at h
              exact Option.noConfusion h
            simp [List.mem_cons, hsm]

/-- Auxiliary: the one-shot split cuts at the first occurrence of the
separator. -/
theorem splitFirst_append (sep : Char) (pre post : Str) (h : sep ∉ pre) :
    splitFirst sep (pre ++ sep :: post) = some (pre, post) := by
  induction pre with
  | nil => simp [splitFirst]
  | cons c cs ih =>
      have hc : c ≠ sep := fun hc => h (hc ▸ List.mem_cons_self c cs)
      have hcs : sep ∉ cs := fun hm => h (List.mem_cons_of_mem c hm)
      simp [splitFirst, if_neg hc, ih hcs]

/-- Auxiliary: the startswith test succeeds on a literal concatenation. -/
theorem isPrefixOf_append (l t : Str) : l.isPrefixOf (l ++ t) = true := by
  induction l with
  | nil => cases t <;> rfl
  | cons c cs ih => simp [List.isPrefixOf, ih]

/-- Auxiliary: the polling loop consumes exactly the non-terminal responses
preceding the first terminal one, and stops on that response having made one
get_query_execution call per consumed response. -/
theorem execute_poll_first_terminal (pre post : List GetStatusResponse)
    (resp : GetStatusResponse)
    (hpre : ∀ x ∈ pre, x.state.isTerminal = false)
    (hresp : resp.state.isTerminal = true) :
    execute_poll (pre ++ resp :: post) = some (resp, pre.length + 1) := by
  induction pre with
  | nil => simp [execute_poll, hresp]
  | cons x rest ih =>
      have hx : x.state.isTerminal = false := hpre x (List.mem_cons_self x rest)
      have hrest : ∀ y ∈ rest, y.state.isTerminal = false :=
        fun y hy => hpre y (List.mem_cons_of_mem x hy)
      simp [execute_poll, hx, ih hrest]

/-- Auxiliary: dropWhile is idempotent. -/
theorem dropWhile_twice (p : Char → Bool) (l : Str) :
    (l.dropWhile p).dropWhile p = l.dropWhile p := by
  induction l with
  | nil => rfl
  | cons c cs ih =>
      cases hc : p c with
      | true => simp [List.dropWhile_cons, hc, ih]
      | false => simp [List.dropWhile_cons, hc]

/-- Claim C1, counterexample: the claim says parse fails whenever the key
part after the first separator is empty, but on "s3://bucket/" the code
returns the pair ("bucket", "") instead of raising. -/
theorem parse_s3_uri_empty_key_accepted :
    parse_s3_uri (strOf "s3://bucket/") = Except.ok (strOf "bucket", []) := rfl

/-- Claim C1, amended: `parse_s3_uri` performs no non-emptiness check — any
address with the scheme and a separator in the remainder is accepted, and
the container part or the key part may come back empty, as on
"s3://bucket/" (empty key) and "s3:///key" (empty container). -/
theorem parse_s3_uri_accepts_empty_parts :
    (∀ s : Str, s3Scheme.isPrefixOf s = true → '/' ∈ s.drop 5 →
        (parse_s3_uri s).isOk = true) ∧
    parse_s3_uri (strOf "s3://bucket/") = Except.ok (strOf "bucket", []) ∧
    parse_s3_uri (strOf "s3:///key") = Except.ok ([], strOf "key") := by
  refine ⟨?_, rfl, rfl⟩
  intro s h hmem
  cases hs : splitFirst '/' (s.drop 5) with
  | none =>
      exact absurd ((splitFirst_eq_none_iff '/' (s.drop 5)).mp hs)
        (by simp [hmem])
  | some p => simp [parse_s3_uri, h, hs, Except.isOk, Except.toBool]

/-- Claim C1, witness for the amended theorem at the concrete accepted
address "s3://c/". -/
theorem parse_s3_uri_accepts_empty_parts_case :
    (parse_s3_uri (strOf "s3://c/")).isOk = true :=
  parse_s3_uri_accepts_empty_parts.1 (strOf "s3://c/") (by decide) (by decide)

/-- Claim C2: when the first terminal status reported by the query service
is failed or cancelled, `execute_athena_query` raises the execution error
carrying exactly that status and the service-provided reason, and `main`
stops there — the Artifact Fetcher is never invoked (zero download calls),
the error message is printed, and the process exits 0. -/
theorem query_failure_aborts (output_location output_file : Str)
    (svc : ServiceBehavior) (pre post : List GetStatusResponse)
    (resp : GetStatusResponse)
    (hresp : svc.responses = pre ++ resp :: post)
    (hpre : ∀ x ∈ pre, x.state.isTerminal = false)
    (hterm : resp.state = Status.failed ∨ resp.state = Status.cancelled) :
    execute_athena_query (ensure_no_trailing_slash output_location)
        svc.queryExecutionId svc.responses
      = some (Except.error ⟨resp.state, resp.stateChangeReason⟩) ∧
    main output_location output_file svc
      = some ⟨[strOf "Error: "
          ++ QueryExecutionError.message ⟨resp.state, resp.stateChangeReason⟩],
          0, 0⟩ := by
  have hterm2 : resp.state.isTerminal = true := by
    rcases hterm with h | h <;> rw [h] <;> rfl
  have hns : ¬ (resp.state = Status.succeeded) := by
    rcases hterm with h | h <;> rw [h] <;> intro hcon <;>
      exact Status.noConfusion hcon
  have hexec : execute_athena_query (ensure_no_trailing_slash output_location)
      svc.queryExecutionId svc.responses
      = some (Except.error ⟨resp.state, resp.stateChangeReason⟩) := by
    unfold execute_athena_query
    rw [hresp, execute_poll_first_terminal pre post resp hpre hterm2]
    simp [hns]
  refine ⟨hexec, ?_⟩
  unfold main tryBody
  rw [hexec]
  rfl

/-- Claim C2, witness: a run whose second poll reports FAILED with reason
"boom" prints exactly the error line and makes no download call. -/
theorem query_failure_aborts_case :
    main (strOf "s3://b/out") (strOf "out.csv")
        ⟨strOf "qid", [⟨Status.running, []⟩, ⟨Status.failed, strOf "boom"⟩],
          fun _ _ => Except.ok ()⟩
      = some ⟨[strOf "Error: Query FAILED: boom"], 0, 0⟩ := by
  have h := (query_failure_aborts (strOf "s3://b/out") (strOf "out.csv")
      ⟨strOf "qid", [⟨Status.running, []⟩, ⟨Status.failed, strOf "boom"⟩],
        fun _ _ => Except.ok ()⟩
      [⟨Status.running, []⟩] [] ⟨Status.failed, strOf "boom"⟩ rfl (by decide)
      (Or.inl rfl)).2
  exact h.trans (by decide)

/-- Claim C3, counterexample: the claim quantifies over all non-empty
container strings, but with container "a/b" and key "k" the split happens at
the first separator inside the container, so parse returns ("a", "b/k")
rather than ("a/b", "k"). -/
theorem parse_s3_uri_roundTrip_slash_container :
    parse_s3_uri (s3Scheme ++ strOf "a/b" ++ strOf "/" ++ strOf "k")
        = Except.ok (strOf "a", strOf "b/k") ∧
    (strOf "a", strOf "b/k") ≠ ((strOf "a/b" : Str), (strOf "k" : Str)) :=
  ⟨by decide, by decide⟩

/-- Claim C3, amended: for every non-empty container that contains no
separator and every non-empty key — even a key containing separators, since
the split is on the first separator only — parsing the address formed as
scheme + container + "/" + key returns exactly (container, key). -/
theorem parse_s3_uri_roundTrip (container key : Str)
    (_hc : container ≠ []) (_hk : key ≠ []) (hsep : '/' ∉ container) :
    parse_s3_uri (s3Scheme ++ container ++ strOf "/" ++ key)
        = Except.ok (container, key) := by
  have haddr : s3Scheme ++ container ++ strOf "/" ++ key
      = s3Scheme ++ (container ++ '/' :: key) := by
    rw [List.append_assoc, List.append_assoc]
    rfl
  rw [haddr]
  unfold parse_s3_uri
  rw [if_pos (isPrefixOf_append s3Scheme (container ++ '/' :: key))]
  rw [show (5 : Nat) = s3Scheme.length from rfl, List.drop_left,
      splitFirst_append '/' container key hsep]

/-- Claim C3, witness for the amended theorem with a key that itself
contains a separator. -/
theorem parse_s3_uri_roundTrip_case :
    parse_s3_uri (s3Scheme ++ strOf "bucket" ++ strOf "/" ++ strOf "a/b.csv")
        = Except.ok (strOf "bucket", strOf "a/b.csv") :=
  parse_s3_uri_roundTrip (strOf "bucket") (strOf "a/b.csv")
    (by decide) (by decide) (by decide)

/-- Claim C4: when the first terminal status is succeeded,
`execute_athena_query` returns the trailing-separator-stripped output
location, followed by "/", the execution handle, and ".csv". -/
theorem execute_result_address (output_location handle : Str)
    (pre post : List GetStatusResponse) (resp : GetStatusResponse)
    (hpre : ∀ x ∈ pre, x.state.isTerminal = false)
    (hst : resp.state = Status.succeeded) :
    execute_athena_query (ensure_no_trailing_slash output_location) handle
        (pre ++ resp :: post)
      = some (Except.ok (ensure_no_trailing_slash output_location ++ strOf "/"
          ++ handle ++ strOf ".csv")) := by
  have hterm : resp.state.isTerminal = true := by rw [hst]; rfl
  unfold execute_athena_query
  rw [execute_poll_first_terminal pre post resp hpre hterm]
  simp [hst]

/-- Claim C4, witness: output location "s3://bucket/path" and handle
"abc-123" yield "s3://bucket/path/abc-123.csv". -/
theorem execute_result_address_case :
    execute_athena_query (ensure_no_trailing_slash (strOf "s3://bucket/path"))
        (strOf "abc-123")
        [⟨Status.running, []⟩, ⟨Status.succeeded, []⟩]
      = some (Except.ok (strOf "s3://bucket/path/abc-123.csv")) := by
  have h := execute_result_address (strOf "s3://bucket/path") (strOf "abc-123")
      [⟨Status.running, []⟩] [] ⟨Status.succeeded, []⟩ (by decide) rfl
  exact h.trans (by decide)

/-- Claim C5: every terminating run of `main` exits 0, and whenever the try
block raises any error, `main` catches it and prints exactly the line
"Error: " followed by the message of that error after whatever the block
had already printed. -/
theorem main_catches_all_errors (output_location output_file : Str)
    (svc : ServiceBehavior) :
    (∀ r : MainResult, main output_location output_file svc = some r →
        r.exitCode = 0) ∧
    (∀ (tr : RunTrace) (e : AppError),
        tryBody output_location output_file svc = some (tr, Except.error e) →
        main output_location output_file svc
          = some ⟨tr.printed ++ [strOf "Error: " ++ e.message],
              tr.downloadCalls, 0⟩) := by
  constructor
  · intro r hr
    unfold main at hr
    rcases h : tryBody output_location output_file svc with _ | ⟨tr, res⟩
    · rw [h] at hr
      exact Option.noConfusion hr
    · rw [h] at hr
      cases res with
      | ok u =>
          injection hr with hr
          rw [← hr]
      | error e =>
          injection hr with hr
          rw [← hr]
  · intro tr e h
    unfold main
    rw [h]

/-- Claim C5, witness: a run whose download raises a transfer error with
message "denied" prints "Error: denied" and exits 0. -/
theorem main_catches_all_errors_case :
    main (strOf "s3://b/out") (strOf "out.csv")
        ⟨strOf "h1", [⟨Status.succeeded, []⟩],
          fun _ _ => Except.error (strOf "denied")⟩
      = some ⟨[strOf "Query succeeded. Result saved in: s3://b/out/h1.csv",
          strOf "Error: denied"], 1, 0⟩ := by
  have h := (main_catches_all_errors (strOf "s3://b/out") (strOf "out.csv")
      ⟨strOf "h1", [⟨Status.succeeded, []⟩],
        fun _ _ => Except.error (strOf "denied")⟩).2
      ⟨[strOf "Query succeeded. Result saved in: s3://b/out/h1.csv"], 1⟩
      (AppError.transfer (strOf "denied")) (by decide)
  exact h.trans (by decide)

/-- Claim C6: whenever the reported status sequence contains a terminal
status, the polling loop terminates, stops exactly on the first terminal
status (never on queued or running, and never past a terminal status), and
makes at least one get_query_execution call. -/
theorem polling_stops_at_first_terminal (pre post : List GetStatusResponse)
    (resp : GetStatusResponse)
    (hpre : ∀ x ∈ pre, x.state.isTerminal = false)
    (hresp : resp.state.isTerminal = true) :
    execute_poll (pre ++ resp :: post) = some (resp, pre.length + 1) ∧
    1 ≤ pre.length + 1 :=
  ⟨execute_poll_first_terminal pre post resp hpre hresp,
   Nat.succ_le_succ (Nat.zero_le pre.length)⟩

/-- Claim C6, witness: on [queued, running, succeeded, running] the loop
stops on the succeeded response after exactly three polls. -/
theorem polling_stops_at_first_terminal_case :
    execute_poll [⟨Status.queued, []⟩, ⟨Status.running, []⟩,
        ⟨Status.succeeded, []⟩, ⟨Status.running, []⟩]
      = some (⟨Status.succeeded, []⟩, 3) :=
  (polling_stops_at_first_terminal [⟨Status.queued, []⟩, ⟨Status.running, []⟩]
      [⟨Status.running, []⟩] ⟨Status.succeeded, []⟩ (by decide) (by decide)).1

/-- Claim C7: the trailing-separator strip is a no-op on a string not ending
in a separator, stripping twice equals stripping once for every string, and
"s3://foo/" and "s3://foo" normalize to the same value. -/
theorem ensure_no_trailing_slash_idempotent :
    (∀ s : Str, s.getLast? ≠ some '/' → ensure_no_trailing_slash s = s) ∧
    (∀ s : Str, ensure_no_trailing_slash (ensure_no_trailing_slash s)
        = ensure_no_trailing_slash s) ∧
    ensure_no_trailing_slash (strOf "s3://foo/")
      = ensure_no_trailing_slash (strOf "s3://foo") := by
  refine ⟨?_, ?_, rfl⟩
  · intro s h
    unfold ensure_no_trailing_slash
    cases hr : s.reverse with
    | nil =>
        have hs : s = [] := List.reverse_eq_nil_iff.mp hr
        simp [hs]
    | cons c t =>
        have hc : c ≠ '/' := by
          intro hceq
          subst hceq
          exact h (by rw [← List.head?_reverse, hr]; rfl)
        rw [List.dropWhile_cons, if_neg (by simp [hc]), ← hr,
          List.reverse_reverse]
  · intro s
    unfold ensure_no_trailing_slash
    rw [List.reverse_reverse, dropWhile_twice]

/-- Claim C7, witness: stripping "s3://foo", which lacks a trailing
separator, is a no-op. -/
theorem ensure_no_trailing_slash_noop_case :
    ensure_no_trailing_slash (strOf "s3://foo") = strOf "s3://foo" :=
  ensure_no_trailing_slash_idempotent.1 (strOf "s3://foo") (by decide)

/-- Claim C8: `parse_s3_uri` rejects every input not starting with the
scheme marker, and every input starting with it whose remainder contains no
separator, each with the corresponding malformed-address error (totality and
determinism hold by construction: the embedding is a total function). -/
theorem parse_s3_uri_rejects (s : Str) :
    (s3Scheme.isPrefixOf s = false →
        parse_s3_uri s = Except.error S3UriError.invalidScheme) ∧
    (s3Scheme.isPrefixOf s = true → '/' ∉ s.drop 5 →
        parse_s3_uri s = Except.error S3UriError.invalidFormat) := by
  constructor
  · intro h
    simp [parse_s3_uri, h]
  · intro h hmem
    unfold parse_s3_uri
    rw [if_pos h, (splitFirst_eq_none_iff '/' (s.drop 5)).mpr hmem]

/-- Claim C8, witness: both rejection branches at concrete inputs. -/
theorem parse_s3_uri_rejects_cases :
    parse_s3_uri (strOf "http://b/k") = Except.error S3UriError.invalidScheme ∧
    parse_s3_uri (strOf "s3://bucketonly")
      = Except.error S3UriError.invalidFormat :=
  ⟨(parse_s3_uri_rejects (strOf "http://b/k")).1 (by decide),
   (parse_s3_uri_rejects (strOf "s3://bucketonly")).2 (by decide) (by decide)⟩

/-- Claim C9: with AWS_PROFILE absent from the environment the default
profile is the fixed fallback name "aberezin"; when present its value is
used verbatim. -/
theorem defaultProfile_resolution :
    defaultProfile none = strOf "aberezin" ∧
    ∀ v : Str, defaultProfile (some v) = v :=
  ⟨rfl, fun _ => rfl⟩

/-- Claim C10: the trailing-separator strip applied to the bare scheme
marker "s3://" removes both slashes, giving "s3:", and a result address
derived from that normalized output location (for any handle not itself
starting with a separator) no longer starts with the scheme marker, so
`parse_s3_uri` rejects it with the malformed-address error. -/
theorem strip_bare_scheme_breaks_parse :
    ensure_no_trailing_slash s3Scheme = strOf "s3:" ∧
    (∀ handle : Str, handle.head? ≠ some '/' →
      s3Scheme.isPrefixOf (ensure_no_trailing_slash s3Scheme ++ strOf "/"
          ++ handle ++ strOf ".csv") = false ∧
      parse_s3_uri (ensure_no_trailing_slash s3Scheme ++ strOf "/"
          ++ handle ++ strOf ".csv")
        = Except.error S3UriError.invalidScheme) := by
  refine ⟨rfl, ?_⟩
  intro handle hh
  have haddr : ensure_no_trailing_slash s3Scheme ++ strOf "/"
      ++ handle ++ strOf ".csv"
      = 's' :: '3' :: ':' :: '/' :: (handle ++ strOf ".csv") := by
    rw [List.append_assoc, List.append_assoc]
    rfl
  rw [haddr]
  have hpf : s3Scheme.isPrefixOf
      ('s' :: '3' :: ':' :: '/' :: (handle ++ strOf ".csv")) = false := by
    cases handle with
    | nil => decide
    | cons c t =>
        have hc : ('/' : Char) ≠ c := by
          intro hceq
          exact hh (by rw [← hceq]; rfl)
        simp [s3Scheme, strOf, List.isPrefixOf, hc]
  exact ⟨hpf, by simp [parse_s3_uri, hpf]⟩

/-- Claim C10, witness: with the typical handle "abc-123" the derived
address is rejected. -/
theorem strip_bare_scheme_breaks_parse_case :
    parse_s3_uri (ensure_no_trailing_slash s3Scheme ++ strOf "/"
        ++ strOf "abc-123" ++ strOf ".csv")
      = Except.error S3UriError.invalidScheme :=
  (strip_bare_scheme_breaks_parse.2 (strOf "abc-123") (by decide)).2

end AthenaTools
